import Mathlib

/-!
Shallow embedding of the persist-zustand synchronization engine
(source file src/index.ts) and proofs about its behaviour.

Modelling conventions:
* JS objects restricted to the flat string-keyed records the engine
  actually persists are association lists from field name to a scalar
  JSON value.  A field whose JS value is undefined is simply absent
  from the list, so the filter on undefined entries in the source
  becomes a filterMap here.
* JSON.stringify is modelled on that fragment (insertion order of the
  keys, double-quote and backslash escaping, integer numbers) and
  JSON.parse by an executable parser of the same fragment; any input
  outside the fragment is a parse failure, which the engine treats the
  same way as a JSON.parse exception (empty snapshot).
* btoa and atob are the Latin-1 base64 transform; btoa fails exactly on
  inputs with a code point above 255, which is the situation in which
  the browser primitive throws InvalidCharacterError.
* The browser world (query parameters, localStorage, sessionStorage,
  history, substrate call counters) is an explicit Env record; failable
  operations return Except String so that an uncaught JS exception is
  an error value.
* The debounce timer is a single pending slot: a scheduling call
  replaces the slot (clearTimeout plus setTimeout) and firing the timer
  consumes it.  Time itself is abstracted away; within one window is
  represented by the timer not having fired between transitions.
-/

/-- Scalar JSON value as persisted by the engine (null, boolean, integer
number, string). -/
inductive JVal where
  | jnull : JVal
  | jbool : Bool → JVal
  | jnum : Int → JVal
  | jstr : String → JVal
deriving DecidableEq

/-- A state snapshot: mapping from field name to value, undefined fields
absent. -/
abbrev Snap := List (String × JVal)

/-- First-occurrence lookup, the JS property read. -/
def slookup : Snap → String → Option JVal
  | [], _ => none
  | (k', v') :: rest, k => if k' = k then some v' else slookup rest k

/-- Last-occurrence lookup; used to reason about fromEntries, where a
later entry for the same key overrides an earlier one. -/
def lastAssoc : Snap → String → Option JVal
  | [], _ => none
  | (k', v') :: rest, k =>
    match lastAssoc rest k with
    | some v => some v
    | none => if k' = k then some v' else none

/-- JS property assignment: replace the value at the first occurrence of
the key, keeping its position, or append the key at the end. -/
def setKey : Snap → String → JVal → Snap
  | [], k, v => [(k, v)]
  | (k', v') :: rest, k, v =>
    if k' = k then (k, v) :: rest else (k', v') :: setKey rest k v

/-- Object.assign onto a copy of the state: zustand setState partial
merge. -/
def mergeSnap (s : Snap) (upd : Snap) : Snap :=
  upd.foldl (fun acc p => setKey acc p.1 p.2) s

/-- Object.fromEntries: build an object from entries, later duplicate
keys overriding earlier ones. -/
def fromEntries (l : Snap) : Snap :=
  mergeSnap [] l

/-- Projection of a state onto a key list, dropping undefined values:
Object.fromEntries(keys.map(k =&gt; [k, state[k]]).filter(v defined)). -/
def projSnap (keys : List String) (s : Snap) : Snap :=
  fromEntries (keys.filterMap fun k => (slookup s k).map (fun v => (k, v)))

/-- Lookup through an optional snapshot (the JS expression prev?.[k]). -/
def olookup : Option Snap → String → Option JVal
  | none, _ => none
  | some s, k => slookup s k

/-- Insertion-order deduplication, the iteration order of a JS Set built
by repeated add. -/
def dedupAux : List String → List String → List String
  | [], _ => []
  | k :: rest, seen =>
    if seen.contains k then dedupAux rest seen else k :: dedupAux rest (k :: seen)

/-- Deduplicate a key list keeping first occurrences. -/
def dedupKeys (l : List String) : List String :=
  dedupAux l []

/-- Lower-case hexadecimal digit. -/
def hexDig (n : Nat) : Char :=
  if n < 10 then Char.ofNat (48 + n) else Char.ofNat (87 + (n - 10))

/-- JSON string escaping of one character as JSON.stringify performs it
on the fragment in use. -/
def escChar (c : Char) : List Char :=
  if c = '\"' then ['\\', '\"']
  else if c = '\\' then ['\\', '\\']
  else if c = '\n' then ['\\', 'n']
  else if c = '\t' then ['\\', 't']
  else if c = '\r' then ['\\', 'r']
  else if c.toNat = 8 then ['\\', 'b']
  else if c.toNat = 12 then ['\\', 'f']
  else if c.toNat < 32 then
    ['\\', 'u', '0', '0', hexDig (c.toNat / 16), hexDig (c.toNat % 16)]
  else [c]

/-- JSON string escaping. -/
def escStr (s : String) : String :=
  String.mk (s.toList.flatMap escChar)

/-- JSON.stringify of a scalar value. -/
def stringifyJVal : JVal → String
  | .jnull => "null"
  | .jbool true => "true"
  | .jbool false => "false"
  | .jnum n => toString n
  | .jstr s => "\"" ++ escStr s ++ "\""

/-- JSON.stringify of one object entry. -/
def stringifyEntry (p : String × JVal) : String :=
  "\"" ++ escStr p.1 ++ "\":" ++ stringifyJVal p.2

/-- JSON.stringify of a flat object: keys in insertion order, no
whitespace. -/
def stringifySnap (s : Snap) : String :=
  "\x7b" ++ String.intercalate "," (s.map stringifyEntry) ++ "\x7d"

/-- Parse the body of a JSON string after the opening quote, handling
backslash escapes of quote and backslash. -/
def parseStrChars : List Char → Option (List Char × List Char)
  | [] => none
  | '\"' :: rest => some ([], rest)
  | '\\' :: e :: rest =>
    if e = '\"' || e = '\\' then
      (parseStrChars rest).map (fun p => (e :: p.1, p.2))
    else none
  | c :: rest =>
    if c = '\\' then none
    else (parseStrChars rest).map (fun p => (c :: p.1, p.2))

/-- Consume a maximal run of decimal digits. -/
def parseDigitsAux : List Char → Nat → Nat × List Char
  | [], acc => (acc, [])
  | c :: rest, acc =>
    if c.isDigit then parseDigitsAux rest (acc * 10 + (c.toNat - 48))
    else (acc, c :: rest)

/-- Parse an optionally negated integer literal. -/
def parseNum : List Char → Option (Int × List Char)
  | [] => none
  | '-' :: rest =>
    match rest with
    | [] => none
    | c :: _ =>
      if c.isDigit then
        let p := parseDigitsAux rest 0
        some (-(p.1 : Int), p.2)
      else none
  | c :: rest =>
    if c.isDigit then
      let p := parseDigitsAux (c :: rest) 0
      some ((p.1 : Int), p.2)
    else none

/-- Parse one scalar JSON value. -/
def parseVal : List Char → Option (JVal × List Char)
  | 'n' :: 'u' :: 'l' :: 'l' :: rest => some (.jnull, rest)
  | 't' :: 'r' :: 'u' :: 'e' :: rest => some (.jbool true, rest)
  | 'f' :: 'a' :: 'l' :: 's' :: 'e' :: rest => some (.jbool false, rest)
  | '\"' :: rest => (parseStrChars rest).map (fun p => (.jstr (String.mk p.1), p.2))
  | cs => (parseNum cs).map (fun p => (.jnum p.1, p.2))

/-- Parse the entry list of a JSON object after the opening brace, up to
and including the closing brace.  The fuel argument bounds recursion by
the input length. -/
def parseEntriesAux : Nat → List Char → Option (Snap × List Char)
  | 0, _ => none
  | fuel + 1, cs =>
    match cs with
    | '\"' :: rest =>
      match parseStrChars rest with
      | none => none
      | some (kcs, rest2) =>
        match rest2 with
        | ':' :: rest3 =>
          match parseVal rest3 with
          | none => none
          | some (v, rest4) =>
            match rest4 with
            | ',' :: rest5 =>
              (parseEntriesAux fuel rest5).map
                (fun p => ((String.mk kcs, v) :: p.1, p.2))
            | '\x7d' :: rest5 => some ([(String.mk kcs, v)], rest5)
            | _ => none
        | _ => none
    | _ => none

/-- JSON.parse restricted to the flat object fragment emitted by the
engine; anything else is a parse failure, which the engine handles like
a JSON.parse exception.  Duplicate keys resolve last-wins as in JS. -/
def jsonParse (s : String) : Option Snap :=
  match s.toList with
  | '\x7b' :: '\x7d' :: rest => if rest = [] then some [] else none
  | '\x7b' :: rest =>
    match parseEntriesAux (rest.length + 1) rest with
    | some (entries, []) => some (fromEntries entries)
    | _ => none
  | _ => none

/-- Base64 alphabet character for a sextet. -/
def b64Char (n : Nat) : Char :=
  if n < 26 then Char.ofNat (65 + n)
  else if n < 52 then Char.ofNat (97 + (n - 26))
  else if n < 62 then Char.ofNat (48 + (n - 52))
  else if n = 62 then '+'
  else '/'

/-- Base64 encoding of a byte list, with padding. -/
def b64EncodeChunks : List Nat → List Char
  | [] => []
  | [a] => [b64Char (a / 4), b64Char (a % 4 * 16), '=', '=']
  | [a, b] => [b64Char (a / 4), b64Char (a % 4 * 16 + b / 16), b64Char (b % 16 * 4), '=']
  | a :: b :: c :: rest =>
    b64Char (a / 4) :: b64Char (a % 4 * 16 + b / 16) ::
      b64Char (b % 16 * 4 + c / 64) :: b64Char (c % 64) :: b64EncodeChunks rest

/-- All code points of the string fit in one byte, the domain of the
browser btoa primitive. -/
def isLatin1 (s : String) : Bool :=
  s.toList.all (fun c => c.toNat ≤ 255)

/-- Browser btoa: base64 of the Latin-1 bytes, failing with
InvalidCharacterError (modelled as none) on a code point above 255. -/
def btoa (s : String) : Option String :=
  if isLatin1 s then some (String.mk (b64EncodeChunks (s.toList.map Char.toNat)))
  else none

/-- Sextet value of a base64 alphabet character. -/
def b64Val (c : Char) : Option Nat :=
  if 65 ≤ c.toNat ∧ c.toNat ≤ 90 then some (c.toNat - 65)
  else if 97 ≤ c.toNat ∧ c.toNat ≤ 122 then some (c.toNat - 97 + 26)
  else if 48 ≤ c.toNat ∧ c.toNat ≤ 57 then some (c.toNat - 48 + 52)
  else if c = '+' then some 62
  else if c = '/' then some 63
  else none

/-- Base64 decoding of a character list in padded quadruples. -/
def b64DecodeChunks : List Char → Option (List Nat)
  | [] => some []
  | [a, b, '=', '='] => do
    let va ← b64Val a
    let vb ← b64Val b
    pure [va * 4 + vb / 16]
  | [a, b, c, '='] => do
    let va ← b64Val a
    let vb ← b64Val b
    let vc ← b64Val c
    pure [va * 4 + vb / 16, vb % 16 * 16 + vc / 4]
  | a :: b :: c :: d :: rest => do
    let va ← b64Val a
    let vb ← b64Val b
    let vc ← b64Val c
    let vd ← b64Val d
    let tail ← b64DecodeChunks rest
    pure ((va * 4 + vb / 16) :: (vb % 16 * 16 + vc / 4) :: (vc % 4 * 64 + vd) :: tail)
  | _ => none

/-- Browser atob: failing (none) on input that is not valid padded
base64, the situation in which the primitive throws. -/
def atob (s : String) : Option String :=
  (b64DecodeChunks s.toList).map (fun l => String.mk (l.map Char.ofNat))

/-- First-occurrence lookup in a string-valued parameter or storage
list: URLSearchParams.get and Storage.getItem. -/
def paramsGet : List (String × String) → String → Option String
  | [], _ => none
  | (k', v') :: rest, k => if k' = k then some v' else paramsGet rest k

/-- Remove every entry for a key: URLSearchParams.delete. -/
def paramsDelete : List (String × String) → String → List (String × String)
  | [], _ => []
  | (k', v') :: rest, k =>
    if k' = k then paramsDelete rest k else (k', v') :: paramsDelete rest k

/-- URLSearchParams.set and Storage.setItem: overwrite the value at the
first occurrence of the key, dropping any later duplicates, or append
the pair at the end. -/
def paramsSet : List (String × String) → String → String → List (String × String)
  | [], k, v => [(k, v)]
  | (k', v') :: rest, k, v =>
    if k' = k then (k, v) :: paramsDelete rest k else (k', v') :: paramsSet rest k v

/-- Storage backend identifier, the StorageType union of the source.
The source literal named local is spelled local_ because local is a
Lean keyword. -/
inductive StorageType where
  | url : StorageType
  | session : StorageType
  | local_ : StorageType
deriving DecidableEq

/-- The keys argument of createPersistStore: one optional key list per
backend. -/
structure KeysArg where
  urlKeys : Option (List String) := none
  localKeys : Option (List String) := none
  sessionKeys : Option (List String) := none
deriving DecidableEq

/-- The base64 option group of PersistStoreOptions. -/
structure B64Opts where
  enabled : Option Bool := none
  threshold : Option Nat := none
deriving DecidableEq

/-- PersistStoreOptions of the source. -/
structure PersistStoreOptions where
  priority : Option (List StorageType) := none
  history : Option (List String) := none
  base64 : Option B64Opts := none
  debounceDelay : Option Nat := none
deriving DecidableEq

/-- The process-wide registered name sets, one per backend category. -/
structure Registry where
  urlNames : List String := []
  localNames : List String := []
  sessionNames : List String := []
deriving DecidableEq

/-- The browser world: query parameters (the parsed address state, kept
authoritative because the engine cache mirrors it synchronously), the
two storages, the history length, per-substrate call counters for the
spy-style properties, injectable quota failures for the storages, and a
counter of emitted console warnings. -/
structure Env where
  urlParams : List (String × String) := []
  localStore : List (String × String) := []
  sessionStore : List (String × String) := []
  histLen : Nat := 0
  urlWrites : Nat := 0
  localWrites : Nat := 0
  sessionWrites : Nat := 0
  localSetFails : Bool := false
  sessionSetFails : Bool := false
  warns : Nat := 0
deriving DecidableEq

/-- An empty browser world. -/
def emptyEnv : Env := {}

/-- Truthiness of the JS guard someKeys?.length. -/
def hasKeys : Option (List String) → Bool
  | none => false
  | some l => !l.isEmpty

/-- options?.priority or the default order; an explicitly given empty
array is kept, matching JS truthiness of arrays. -/
def effPriority (opts : PersistStoreOptions) : List StorageType :=
  match opts.priority with
  | some l => l
  | none => [.url, .session, .local_]

/-- options?.history or the empty list. -/
def historyKeysOf (opts : PersistStoreOptions) : List String :=
  opts.history.getD []

/-- Truthiness of options?.base64?.enabled. -/
def b64Enabled (opts : PersistStoreOptions) : Bool :=
  match opts.base64 with
  | none => false
  | some b => b.enabled.getD false

/-- options.base64.threshold or 100, via JS or-else, so an explicit 0
also falls back to 100. -/
def b64Threshold (opts : PersistStoreOptions) : Nat :=
  match opts.base64 with
  | none => 100
  | some b =>
    match b.threshold with
    | none => 100
    | some 0 => 100
    | some (t + 1) => t + 1

/-- Truthiness of options?.history and options.history.length inside
persistToUrl, deciding pushState versus replaceState. -/
def useHistOpt (opts : PersistStoreOptions) : Bool :=
  match opts.history with
  | none => false
  | some l => !l.isEmpty

/-- Record the history update of a URL persist: pushState grows the
history, replaceState does not; either is one substrate write. -/
def recordUrlWrite (env : Env) (push : Bool) : Env :=
  { env with
    urlWrites := env.urlWrites + 1,
    histLen := if push then env.histLen + 1 else env.histLen }

/-- persistToUrl of the source: project the state onto the URL keys,
serialize, short-circuit against the previous serialization, apply the
size-triggered base64 transform and maintain the name_encoded sibling
flag, then write the parameters through a history update.  The btoa
failure on non-Latin-1 data is an uncaught exception, hence an error
value. -/
def persistToUrl (name : String) (urlKeys : List String) (state : Snap)
    (opts : PersistStoreOptions) (prevJsonStr : Option String) (env : Env) :
    Except String Env :=
  let data := projSnap urlKeys state
  let dataStr := stringifySnap data
  if prevJsonStr = some dataStr then .ok env
  else
    let shouldEncode := b64Enabled opts && decide (dataStr.length > b64Threshold opts)
    if shouldEncode then
      match btoa dataStr with
      | none => .error "InvalidCharacterError"
      | some enc =>
        let ps := paramsSet (paramsSet env.urlParams (name ++ "_encoded") "1") name enc
        .ok (recordUrlWrite { env with urlParams := ps } (useHistOpt opts))
    else
      let ps := paramsSet (paramsDelete env.urlParams (name ++ "_encoded")) name dataStr
      .ok (recordUrlWrite { env with urlParams := ps } (useHistOpt opts))

/-- readFromUrl of the source: look the name up in the query parameters,
decode (honouring the name_encoded sibling flag), project onto the
requested keys; every failure inside the try block yields the empty
snapshot. -/
def readFromUrl (name : String) (urlKeys : List String) (env : Env) : Snap :=
  match paramsGet env.urlParams name with
  | none => []
  | some raw =>
    if raw = "" then []
    else
      let isEncoded := decide (paramsGet env.urlParams (name ++ "_encoded") = some "1")
      let parsed := if isEncoded then (atob raw).bind jsonParse else jsonParse raw
      match parsed with
      | none => []
      | some obj => projSnap urlKeys obj

/-- persistToLocalStorage of the source: project, serialize,
short-circuit against the previous serialization, then setItem inside a
try block whose catch only warns, so a quota failure never escapes. -/
def persistToLocalStorage (name : String) (localKeys : List String) (state : Snap)
    (prevJsonStr : Option String) (env : Env) : Env :=
  let data := projSnap localKeys state
  let dataStr := stringifySnap data
  if prevJsonStr = some dataStr then env
  else if env.localSetFails then
    { env with localWrites := env.localWrites + 1, warns := env.warns + 1 }
  else
    { env with
      localStore := paramsSet env.localStore name dataStr,
      localWrites := env.localWrites + 1 }

/-- readFromLocalStorage of the source: getItem, parse, project; any
failure yields the empty snapshot. -/
def readFromLocalStorage (name : String) (localKeys : List String) (env : Env) : Snap :=
  match paramsGet env.localStore name with
  | none => []
  | some raw =>
    if raw = "" then []
    else
      match jsonParse raw with
      | none => []
      | some obj => projSnap localKeys obj

/-- persistToSessionStorage of the source, the sessionStorage twin of
persistToLocalStorage. -/
def persistToSessionStorage (name : String) (sessionKeys : List String) (state : Snap)
    (prevJsonStr : Option String) (env : Env) : Env :=
  let data := projSnap sessionKeys state
  let dataStr := stringifySnap data
  if prevJsonStr = some dataStr then env
  else if env.sessionSetFails then
    { env with sessionWrites := env.sessionWrites + 1, warns := env.warns + 1 }
  else
    { env with
      sessionStore := paramsSet env.sessionStore name dataStr,
      sessionWrites := env.sessionWrites + 1 }

/-- readFromSessionStorage of the source. -/
def readFromSessionStorage (name : String) (sessionKeys : List String) (env : Env) : Snap :=
  match paramsGet env.sessionStore name with
  | none => []
  | some raw =>
    if raw = "" then []
    else
      match jsonParse raw with
      | none => []
      | some obj => projSnap sessionKeys obj

/-- The URL conflict error message of the source. -/
def urlConflictMsg (name : String) : String :=
  "URL store name conflict: \"" ++ name ++ "\" is already in use. Please choose a different name."

/-- The localStorage conflict error message of the source. -/
def localConflictMsg (name : String) : String :=
  "localStorage store name conflict: \"" ++ name ++ "\" is already in use. Please choose a different name."

/-- The sessionStorage conflict error message of the source. -/
def sessionConflictMsg (name : String) : String :=
  "sessionStorage store name conflict: \"" ++ name ++ "\" is already in use. Please choose a different name."

/-- Set.add on a registered-name set. -/
def addName (l : List String) (n : String) : List String :=
  if l.contains n then l else l ++ [n]

/-- The registry phase of createPersistStore: the three conflict checks
in source order, each guarded by the truthiness of its key list, then
the three guarded registrations. -/
def checkRegistry (name : String) (keys : KeysArg) (reg : Registry) :
    Except String Registry :=
  if hasKeys keys.urlKeys && reg.urlNames.contains name then
    .error (urlConflictMsg name)
  else if hasKeys keys.localKeys && reg.localNames.contains name then
    .error (localConflictMsg name)
  else if hasKeys keys.sessionKeys && reg.sessionNames.contains name then
    .error (sessionConflictMsg name)
  else
    .ok
      { urlNames := if hasKeys keys.urlKeys then addName reg.urlNames name else reg.urlNames,
        localNames := if hasKeys keys.localKeys then addName reg.localNames name else reg.localNames,
        sessionNames := if hasKeys keys.sessionKeys then addName reg.sessionNames name else reg.sessionNames }

/-- Truthiness of urlKeys?.length, localKeys?.length or
sessionKeys?.length combined, the hasAnyStorage guard. -/
def hasAnyStorage (keys : KeysArg) : Bool :=
  hasKeys keys.urlKeys || hasKeys keys.localKeys || hasKeys keys.sessionKeys

/-- Whether a key is declared for a storage type, the expressions
urlKeys?.includes(key) and friends with or-else false. -/
def declaresKey (keys : KeysArg) (st : StorageType) (k : String) : Bool :=
  match st with
  | .url => (keys.urlKeys.getD []).contains k
  | .session => (keys.sessionKeys.getD []).contains k
  | .local_ => (keys.localKeys.getD []).contains k

/-- One iteration of the priority loop body: if the storage type
declares the key, read just that key from its backend and expose the
value when it is defined. -/
def readAtKey (name : String) (keys : KeysArg) (env : Env) (k : String) :
    StorageType → Option JVal
  | .url => if declaresKey keys .url k then slookup (readFromUrl name [k] env) k else none
  | .session => if declaresKey keys .session k then slookup (readFromSessionStorage name [k] env) k else none
  | .local_ => if declaresKey keys .local_ k then slookup (readFromLocalStorage name [k] env) k else none

/-- The per-key priority loop of createPersistStore: walk the order and
adopt the first defined value, stopping there. -/
def resolveKeyAux (name : String) (keys : KeysArg) (env : Env) (k : String) :
    List StorageType → Option JVal
  | [] => none
  | st :: rest =>
    match readAtKey name keys env k st with
    | some v => some v
    | none => resolveKeyAux name keys env k rest

/-- The resolved initial value of one key under the configured priority
order. -/
def resolveKey (name : String) (keys : KeysArg) (opts : PersistStoreOptions)
    (env : Env) (k : String) : Option JVal :=
  resolveKeyAux name keys env k (effPriority opts)

/-- The allKeys set of createPersistStore in Set insertion order. -/
def allKeysList (keys : KeysArg) : List String :=
  dedupKeys ((keys.urlKeys.getD []) ++ (keys.localKeys.getD []) ++ (keys.sessionKeys.getD []))

/-- The initialData object assembled by the per-key priority loops. -/
def resolveAll (name : String) (keys : KeysArg) (opts : PersistStoreOptions)
    (env : Env) : Snap :=
  (allKeysList keys).filterMap fun k => (resolveKey name keys opts env k).map (fun v => (k, v))

/-- One bound store: the wrapped store state, the per-backend tracked
snapshots and serializations, the single pending debounce slot (the
scheduled snapshot and the navigation-significant flag captured at
schedule time), the live-subscription flag, whether the engine attached
a destroy method, and whether a popstate listener is registered. -/
structure Binding where
  name : String
  urlKeys : Option (List String)
  localKeys : Option (List String)
  sessionKeys : Option (List String)
  opts : PersistStoreOptions
  storeState : Snap
  prevUrl : Option Snap
  prevLocal : Option Snap
  prevSession : Option Snap
  prevStrUrl : Option String
  prevStrLocal : Option String
  prevStrSession : Option String
  pending : Option (Snap × Bool)
  subscribed : Bool
  hasDestroy : Bool
  popListener : Bool
deriving DecidableEq

/-- The useHistory flag computed at bind time. -/
def useHistoryOf (opts : PersistStoreOptions) (keys : KeysArg) : Bool :=
  !(historyKeysOf opts).isEmpty && hasKeys keys.urlKeys

/-- The early-return store of createPersistStore when no backend
declares any key: the bare wrapped store, no subscription, no engine
destroy method. -/
def mkPlainBinding (name : String) (keys : KeysArg) (init : Option Snap)
    (opts : PersistStoreOptions) : Binding :=
  { name := name
    urlKeys := keys.urlKeys
    localKeys := keys.localKeys
    sessionKeys := keys.sessionKeys
    opts := opts
    storeState := init.getD []
    prevUrl := none
    prevLocal := none
    prevSession := none
    prevStrUrl := none
    prevStrLocal := none
    prevStrSession := none
    pending := none
    subscribed := false
    hasDestroy := false
    popListener := false }

/-- The fully bound store: initial state resolved by priority and merged
over the initializer result, tracked snapshots initialized from the
resulting state, subscription wired, destroy attached. -/
def mkBoundBinding (name : String) (keys : KeysArg) (init : Option Snap)
    (opts : PersistStoreOptions) (env : Env) : Binding :=
  let st0 := init.getD []
  let idata := resolveAll name keys opts env
  let st1 := if idata.isEmpty then st0 else mergeSnap st0 idata
  { name := name
    urlKeys := keys.urlKeys
    localKeys := keys.localKeys
    sessionKeys := keys.sessionKeys
    opts := opts
    storeState := st1
    prevUrl := if hasKeys keys.urlKeys then some (projSnap (keys.urlKeys.getD []) st1) else none
    prevLocal := if hasKeys keys.localKeys then some (projSnap (keys.localKeys.getD []) st1) else none
    prevSession := if hasKeys keys.sessionKeys then some (projSnap (keys.sessionKeys.getD []) st1) else none
    prevStrUrl := if hasKeys keys.urlKeys then some (stringifySnap (projSnap (keys.urlKeys.getD []) st1)) else none
    prevStrLocal := if hasKeys keys.localKeys then some (stringifySnap (projSnap (keys.localKeys.getD []) st1)) else none
    prevStrSession := if hasKeys keys.sessionKeys then some (stringifySnap (projSnap (keys.sessionKeys.getD []) st1)) else none
    pending := none
    subscribed := true
    hasDestroy := true
    popListener := useHistoryOf opts keys }

/-- createPersistStore: registry checks and registrations, then either
the bare store (no backend declares a key) or the fully bound store.
The second component is the registry after the call. -/
def createPersistStore (name : String) (keys : KeysArg) (init : Option Snap)
    (opts : PersistStoreOptions) (reg : Registry) (env : Env) :
    Except String (Binding × Registry) :=
  match checkRegistry name keys reg with
  | .error e => .error e
  | .ok reg' =>
    if hasAnyStorage keys then .ok (mkBoundBinding name keys init opts env, reg')
    else .ok (mkPlainBinding name keys init opts, reg')

/-- A default binding used only to give total extractors for concrete
evaluations. -/
def emptyBinding : Binding :=
  mkPlainBinding "" {} none {}

/-- Extract the binding of a successful createPersistStore call. -/
def bindingOf (r : Except String (Binding × Registry)) : Binding :=
  match r with
  | .ok p => p.1
  | .error _ => emptyBinding

/-- Extract the registry of a successful createPersistStore call. -/
def registryOf (r : Except String (Binding × Registry)) (reg : Registry) : Registry :=
  match r with
  | .ok p => p.2
  | .error _ => reg

/-- The change flags computed on one store transition: one dirtiness
flag per backend and the navigation-significant flag. -/
structure ChangeSet where
  url : Bool
  loc : Bool
  ses : Bool
  hist : Bool
deriving DecidableEq

/-- checkChanges of the source: per declared backend, compare the
serialization of the tracked snapshot with the serialization of the
projected current state; additionally detect a change on any declared
history key against the tracked URL snapshot. -/
def checkChanges (b : Binding) (curr : Snap) : ChangeSet :=
  { url :=
      if hasKeys b.urlKeys then
        decide (Option.map stringifySnap b.prevUrl ≠ some (stringifySnap (projSnap (b.urlKeys.getD []) curr)))
      else false
    loc :=
      if hasKeys b.localKeys then
        decide (Option.map stringifySnap b.prevLocal ≠ some (stringifySnap (projSnap (b.localKeys.getD []) curr)))
      else false
    ses :=
      if hasKeys b.sessionKeys then
        decide (Option.map stringifySnap b.prevSession ≠ some (stringifySnap (projSnap (b.sessionKeys.getD []) curr)))
      else false
    hist :=
      if hasKeys b.urlKeys && !(historyKeysOf b.opts).isEmpty then
        (historyKeysOf b.opts).any (fun k => decide (olookup b.prevUrl k ≠ slookup curr k))
      else false }

/-- One store transition: setState merge, then, while the subscription
is live, the subscription callback, which schedules the debounced flush
(replacing any pending one) when some backend is dirty. -/
def transition (b : Binding) (upd : Snap) : Binding :=
  let s := mergeSnap b.storeState upd
  let b1 := { b with storeState := s }
  if b.subscribed then
    let cs := checkChanges b1 s
    if cs.url || cs.loc || cs.ses then { b1 with pending := some (s, cs.hist) }
    else b1
  else b1

/-- A sequence of transitions with no timer firing in between: all
within one debounce window. -/
def runTransitions (b : Binding) (ts : List Snap) : Binding :=
  ts.foldl transition b

/-- The URL leg of the debounced flush body. -/
def flushUrl (cur : Snap) (hist : Bool) (b : Binding) (env : Env) :
    Except String (Binding × Env) :=
  if hasKeys b.urlKeys && b.prevUrl.isSome then
    let uk := b.urlKeys.getD []
    let urlCurr := projSnap uk cur
    let optsH := { b.opts with
      history := some (if hist && useHistoryOf b.opts { urlKeys := b.urlKeys, localKeys := b.localKeys, sessionKeys := b.sessionKeys } then historyKeysOf b.opts else []) }
    match persistToUrl b.name uk urlCurr optsH b.prevStrUrl env with
    | .error e => .error e
    | .ok env' =>
      .ok ({ b with prevUrl := some urlCurr, prevStrUrl := some (stringifySnap urlCurr) }, env')
  else .ok (b, env)

/-- The localStorage leg of the debounced flush body. -/
def flushLocal (cur : Snap) (b : Binding) (env : Env) : Binding × Env :=
  if hasKeys b.localKeys && b.prevLocal.isSome then
    let lk := b.localKeys.getD []
    let localCurr := projSnap lk cur
    let env' := persistToLocalStorage b.name lk localCurr b.prevStrLocal env
    ({ b with prevLocal := some localCurr, prevStrLocal := some (stringifySnap localCurr) }, env')
  else (b, env)

/-- The sessionStorage leg of the debounced flush body. -/
def flushSession (cur : Snap) (b : Binding) (env : Env) : Binding × Env :=
  if hasKeys b.sessionKeys && b.prevSession.isSome then
    let sk := b.sessionKeys.getD []
    let sessionCurr := projSnap sk cur
    let env' := persistToSessionStorage b.name sk sessionCurr b.prevStrSession env
    ({ b with prevSession := some sessionCurr, prevStrSession := some (stringifySnap sessionCurr) }, env')
  else (b, env)

/-- Firing the debounce timer: nothing without a pending slot; otherwise
run the flush body on the snapshot and flag captured at schedule time,
URL then localStorage then sessionStorage, an exception in the URL leg
aborting the rest.  Note that the slot is consumed by the firing no
matter what destroy did in the meantime: destroy neither clears the
timer nor is consulted here, exactly as in the source. -/
def fire (b : Binding) (env : Env) : Except String (Binding × Env) :=
  match b.pending with
  | none => .ok (b, env)
  | some (cur, hist) =>
    match flushUrl cur hist { b with pending := none } env with
    | .error e => .error e
    | .ok (b1, env1) =>
      let p2 := flushLocal cur b1 env1
      let p3 := flushSession cur p2.1 p2.2
      .ok p3

/-- The destroy method attached by the engine: remove the popstate
listener and unsubscribe.  It does not touch the pending debounce
slot. -/
def destroyB (b : Binding) : Binding :=
  { b with subscribed := false, popListener := false }

/-- Environment after firing, with a fallback for concrete evaluations
of failing runs. -/
def firedEnv (b : Binding) (env : Env) : Env :=
  match fire b env with
  | .ok p => p.2
  | .error _ => emptyEnv

/-- Environment extracted from a persistToUrl result, with a fallback
for the failing case. -/
def okEnv (r : Except String Env) (env : Env) : Env :=
  match r with
  | .ok e => e
  | .error _ => env

def c1Keys : KeysArg := { urlKeys := some ["k"], localKeys := some ["k"] }

def c1Opts : PersistStoreOptions := { priority := some [.url, .local_] }

def c1Env : Env :=
  { urlParams := [("s", "\x7b\"k\":1\x7d")], localStore := [("s", "\x7b\"k\":2\x7d")] }

def c1Res : Except String (Binding × Registry) :=
  createPersistStore "s" c1Keys (some [("k", .jnum 0)]) c1Opts {} c1Env

def c6FirstBind : Except String (Binding × Registry) :=
  createPersistStore "x" { urlKeys := some ["a"] } none {} {} emptyEnv

def dbKeys : KeysArg := { localKeys := some ["a"] }

def dbBind0 : Binding :=
  bindingOf (createPersistStore "n" dbKeys (some [("a", JVal.jnum 1)]) {} {} emptyEnv)

/-- Binding extracted after firing, with a fallback for failing runs. -/
def firedBinding (b : Binding) (env : Env) : Binding :=
  match fire b env with
  | .ok p => p.1
  | .error _ => emptyBinding

def c2AfterRun : Binding :=
  runTransitions dbBind0 [[("a", JVal.jnum 2)], [("a", JVal.jnum 1)]]

def c3Destroyed : Binding :=
  destroyB (transition dbBind0 [("a", JVal.jnum 2)])

def c4Keys : KeysArg := { urlKeys := some ["a"] }

def c4Opts : PersistStoreOptions := { base64 := some { enabled := some true, threshold := some 2 } }

def c4Bind0 : Binding :=
  bindingOf (createPersistStore "u" c4Keys (some [("a", JVal.jstr "x")]) c4Opts {} emptyEnv)

def c4Bind1 : Binding := transition c4Bind0 [("a", JVal.jstr "€")]

def c5OptsT8 : PersistStoreOptions := { base64 := some { enabled := some true, threshold := some 8 } }

def c5OptsT7 : PersistStoreOptions := { base64 := some { enabled := some true, threshold := some 7 } }

def c5FlagEnv : Env := { urlParams := [("n" ++ "_encoded", "1")] }

def c8B : Binding := { dbBind0 with pending := some ([("a", JVal.jnum 1)], false) }

def c7Env : Env :=
  { urlParams := [("n", "notjson"), ("m", "!!!"), ("m" ++ "_encoded", "1")],
    localStore := [("n", "\x7bbad")], sessionStore := [("n", "nope")] }

theorem slookup_setKey (s : Snap) (k0 k : String) (v0 : JVal) :
    slookup (setKey s k0 v0) k = if k0 = k then some v0 else slookup s k := by
  induction s with
  | nil =>
    by_cases h : k0 = k <;> simp [setKey, slookup, h]
  | cons p rest ih =>
    obtain ⟨k', v'⟩ := p
    by_cases h1 : k' = k0
    · subst h1
      by_cases h2 : k' = k <;> simp [setKey, slookup, h2]
    · by_cases h2 : k' = k
      · subst h2
        have hne : ¬ k0 = k' := fun h => h1 h.symm
        simp [setKey, slookup, h1, hne]
      · simp [setKey, slookup, h1, h2, ih]

theorem mergeSnap_lookup (u : Snap) (s : Snap) (k : String) :
    slookup (mergeSnap s u) k =
      match lastAssoc u k with
      | some v => some v
      | none => slookup s k := by
  induction u generalizing s with
  | nil => simp [mergeSnap, lastAssoc]
  | cons p rest ih =>
    obtain ⟨k0, v0⟩ := p
    have hstep : mergeSnap s ((k0, v0) :: rest) = mergeSnap (setKey s k0 v0) rest := rfl
    rw [hstep, ih]
    cases h : lastAssoc rest k with
    | some v => simp [lastAssoc, h]
    | none =>
      by_cases h2 : k0 = k <;> simp [lastAssoc, h, h2, slookup_setKey]

theorem fromEntries_lookup (l : Snap) (k : String) :
    slookup (fromEntries l) k = lastAssoc l k := by
  have h := mergeSnap_lookup l [] k
  simp only [fromEntries]
  rw [h]
  cases lastAssoc l k <;> simp [slookup]

theorem lastAssoc_filterMap (g : String → Option JVal) (l : List String) (k : String) :
    lastAssoc (l.filterMap fun k' => (g k').map (fun v => (k', v))) k =
      if l.contains k then g k else none := by
  induction l with
  | nil => simp [lastAssoc]
  | cons k0 rest ih =>
    cases h0 : g k0 with
    | none =>
      rw [List.filterMap_cons]
      simp only [h0, Option.map_none']
      rw [ih]
      by_cases hmem : k ∈ rest
      · simp [hmem]
      · by_cases hk : k = k0
        · subst hk
          simp [hmem, h0]
        · simp [hmem, hk]
    | some v0 =>
      rw [List.filterMap_cons]
      simp only [h0, Option.map_some']
      have hstep : lastAssoc ((k0, v0) :: (rest.filterMap fun k' => (g k').map (fun v => (k', v)))) k =
          match lastAssoc (rest.filterMap fun k' => (g k').map (fun v => (k', v))) k with
          | some v => some v
          | none => if k0 = k then some v0 else none := rfl
      rw [hstep, ih]
      by_cases hmem : k ∈ rest
      · cases hgk : g k with
        | some v => simp [hmem, hgk]
        | none =>
          by_cases hk : k = k0
          · subst hk
            rw [h0] at hgk
            cases hgk
          · have h' : ¬ k0 = k := fun h => hk h.symm
            simp [hmem, hgk, h', hk]
      · by_cases hk : k = k0
        · subst hk
          simp [hmem, h0]
        · have h' : ¬ k0 = k := fun h => hk h.symm
          simp [hmem, hk, h']

theorem projSnap_lookup (keys : List String) (s : Snap) (k : String) :
    slookup (projSnap keys s) k = if keys.contains k then slookup s k else none := by
  rw [projSnap, fromEntries_lookup, lastAssoc_filterMap]

theorem filterMap_proj_congr (keys l : List String) (s : Snap)
    (h : ∀ k, l.contains k → keys.contains k) :
    (l.filterMap fun k => (slookup (projSnap keys s) k).map (fun v => (k, v))) =
      l.filterMap fun k => (slookup s k).map (fun v => (k, v)) := by
  induction l with
  | nil => rfl
  | cons k0 rest ih =>
    have hk0 : keys.contains k0 := by
      apply h
      simp
    have hrest : ∀ k, rest.contains k → keys.contains k := by
      intro k hk
      apply h
      simp at hk
      simp [hk]
    rw [List.filterMap_cons, List.filterMap_cons, projSnap_lookup, hk0]
    simp only [if_true]
    rw [ih hrest]

theorem projSnap_idem (keys : List String) (s : Snap) :
    projSnap keys (projSnap keys s) = projSnap keys s := by
  show fromEntries _ = fromEntries _
  rw [filterMap_proj_congr keys keys s (fun _ h => h)]

theorem mem_dedupAux (l : List String) : ∀ seen k, k ∈ dedupAux l seen ↔ (k ∈ l ∧ k ∉ seen) := by
  induction l with
  | nil =>
    intro seen k
    simp [dedupAux]
  | cons k0 rest ih =>
    intro seen k
    by_cases h0 : seen.contains k0
    · rw [dedupAux, if_pos h0, ih]
      have h0m : k0 ∈ seen := by simpa using h0
      constructor
      · rintro ⟨hk, hns⟩
        exact ⟨List.mem_cons_of_mem _ hk, hns⟩
      · rintro ⟨hk, hns⟩
        rcases List.mem_cons.mp hk with rfl | hk2
        · exact absurd h0m hns
        · exact ⟨hk2, hns⟩
    · rw [dedupAux, if_neg h0]
      have h0m : k0 ∉ seen := by simpa using h0
      constructor
      · intro hmem
        rcases List.mem_cons.mp hmem with rfl | hmem2
        · exact ⟨List.mem_cons_self _ _, h0m⟩
        · rcases (ih (k0 :: seen) k).mp hmem2 with ⟨hk, hns⟩
          constructor
          · exact List.mem_cons_of_mem _ hk
          · intro hs
            exact hns (List.mem_cons_of_mem _ hs)
      · rintro ⟨hk, hns⟩
        by_cases hkk : k = k0
        · subst hkk
          exact List.mem_cons_self _ _
        · rcases List.mem_cons.mp hk with rfl | hk2
          · exact absurd rfl hkk
          · apply List.mem_cons_of_mem
            rw [ih]
            constructor
            · exact hk2
            · intro hs
              rcases List.mem_cons.mp hs with rfl | hs2
              · exact hkk rfl
              · exact hns hs2

theorem mem_allKeysList (keys : KeysArg) (k : String) :
    k ∈ allKeysList keys ↔
      k ∈ (keys.urlKeys.getD []) ++ (keys.localKeys.getD []) ++ (keys.sessionKeys.getD []) := by
  rw [allKeysList, dedupKeys, mem_dedupAux]
  simp

theorem hasKeys_of_mem (o : Option (List String)) (k : String) (h : k ∈ o.getD []) :
    hasKeys o = true := by
  cases o with
  | none => simp at h
  | some l =>
    cases l with
    | nil => simp at h
    | cons a as => rfl

theorem hasAnyStorage_of_mem (keys : KeysArg) (k : String)
    (h : k ∈ allKeysList keys) : hasAnyStorage keys = true := by
  rw [mem_allKeysList] at h
  rw [hasAnyStorage]
  rcases List.mem_append.mp h with h2 | hs
  · rcases List.mem_append.mp h2 with hu | hl
    · simp [hasKeys_of_mem _ _ hu]
    · simp [hasKeys_of_mem _ _ hl]
  · simp [hasKeys_of_mem _ _ hs]

theorem stringifySnap_length (s : Snap) : 2 ≤ (stringifySnap s).length := by
  rw [stringifySnap, String.length_append, String.length_append]
  have h1 : ("\x7b" : String).length = 1 := rfl
  have h2 : ("\x7d" : String).length = 1 := rfl
  omega

theorem mkBoundBinding_storeState (name : String) (keys : KeysArg) (init : Option Snap)
    (opts : PersistStoreOptions) (env : Env) :
    (mkBoundBinding name keys init opts env).storeState =
      mergeSnap (init.getD []) (resolveAll name keys opts env) := by
  rw [mkBoundBinding]
  cases h : (resolveAll name keys opts env).isEmpty with
  | false => simp [h]
  | true =>
    have he : resolveAll name keys opts env = [] := by
      cases hl : resolveAll name keys opts env with
      | nil => rfl
      | cons a as => rw [hl] at h; simp at h
    simp [h, he]
    rfl

/-- C1: at bind time each declared key resolves to the first backend in
the configured priority order that declares it and yields a defined
value; when none yields, the initializer default stands; in particular
for a two-backend order the first backend that yields wins
unconditionally. -/
theorem c1_priority_resolution
    (name : String) (keys : KeysArg) (init : Option Snap) (opts : PersistStoreOptions)
    (reg reg' : Registry) (env : Env) (b : Binding) (k : String)
    (hok : createPersistStore name keys init opts reg env = .ok (b, reg'))
    (hk : k ∈ allKeysList keys) :
    (∀ v, resolveKey name keys opts env k = some v → slookup b.storeState k = some v)
    ∧ (resolveKey name keys opts env k = none →
        slookup b.storeState k = slookup (init.getD []) k)
    ∧ (∀ sA sB vA, effPriority opts = [sA, sB] →
        readAtKey name keys env k sA = some vA →
        slookup b.storeState k = some vA) := by
  have has := hasAnyStorage_of_mem keys k hk
  rw [createPersistStore] at hok
  cases hcr : checkRegistry name keys reg with
  | error e =>
    rw [hcr] at hok
    cases hok
  | ok reg2 =>
    rw [hcr] at hok
    rw [has] at hok
    simp only [if_true] at hok
    have hb : b = mkBoundBinding name keys init opts env := by
      cases hok
      rfl
    subst hb
    have hc : (allKeysList keys).contains k = true := by
      simp [hk]
    have hmain : slookup (mkBoundBinding name keys init opts env).storeState k =
        match resolveKey name keys opts env k with
        | some v => some v
        | none => slookup (init.getD []) k := by
      rw [mkBoundBinding_storeState, mergeSnap_lookup, resolveAll, lastAssoc_filterMap, hc]
      simp
    refine ⟨?_, ?_, ?_⟩
    · intro v hv
      rw [hmain, hv]
    · intro hnone
      rw [hmain, hnone]
    · intro sA sB vA hpr hread
      have hres : resolveKey name keys opts env k = some vA := by
        rw [resolveKey, hpr, resolveKeyAux, hread]
      rw [hmain, hres]

theorem addName_contains_self (l : List String) (n : String) :
    (addName l n).contains n = true := by
  rw [addName]
  by_cases h : l.contains n
  · rw [if_pos h]
    exact h
  · rw [if_neg h]
    simp

theorem createPersistStore_registry (name : String) (keys : KeysArg) (init : Option Snap)
    (opts : PersistStoreOptions) (reg : Registry) (env : Env) (b : Binding) (reg' : Registry)
    (hok : createPersistStore name keys init opts reg env = .ok (b, reg')) :
    checkRegistry name keys reg = .ok reg' := by
  rw [createPersistStore] at hok
  cases hcr : checkRegistry name keys reg with
  | error e =>
    rw [hcr] at hok
    cases hok
  | ok r2 =>
    rw [hcr] at hok
    cases hhas : hasAnyStorage keys <;>
    · rw [hhas] at hok
      simp at hok
      rw [hok.2]

theorem checkRegistry_ok_fields (name : String) (keys : KeysArg) (reg reg' : Registry)
    (h : checkRegistry name keys reg = .ok reg') :
    reg'.urlNames = (if hasKeys keys.urlKeys then addName reg.urlNames name else reg.urlNames)
    ∧ reg'.localNames = (if hasKeys keys.localKeys then addName reg.localNames name else reg.localNames)
    ∧ reg'.sessionNames = (if hasKeys keys.sessionKeys then addName reg.sessionNames name else reg.sessionNames) := by
  rw [checkRegistry] at h
  split at h
  · cases h
  · split at h
    · cases h
    · split at h
      · cases h
      · cases h
        exact ⟨rfl, rfl, rfl⟩

theorem createPersistStore_url_conflict (name : String) (keys : KeysArg) (init : Option Snap)
    (opts : PersistStoreOptions) (reg : Registry) (env : Env)
    (hu : hasKeys keys.urlKeys = true) (hc : reg.urlNames.contains name = true) :
    createPersistStore name keys init opts reg env = .error (urlConflictMsg name) := by
  rw [createPersistStore, checkRegistry, hu, hc]
  simp

theorem createPersistStore_local_conflict (name : String) (keys : KeysArg) (init : Option Snap)
    (opts : PersistStoreOptions) (reg : Registry) (env : Env)
    (hu : hasKeys keys.urlKeys = false)
    (hl : hasKeys keys.localKeys = true) (hc : reg.localNames.contains name = true) :
    createPersistStore name keys init opts reg env = .error (localConflictMsg name) := by
  rw [createPersistStore, checkRegistry, hu, hl, hc]
  simp

theorem createPersistStore_session_conflict (name : String) (keys : KeysArg) (init : Option Snap)
    (opts : PersistStoreOptions) (reg : Registry) (env : Env)
    (hu : hasKeys keys.urlKeys = false) (hl : hasKeys keys.localKeys = false)
    (hs : hasKeys keys.sessionKeys = true) (hc : reg.sessionNames.contains name = true) :
    createPersistStore name keys init opts reg env = .error (sessionConflictMsg name) := by
  rw [createPersistStore, checkRegistry, hu, hl, hs, hc]
  simp

theorem createPersistStore_ok_of_free (name : String) (keys : KeysArg) (init : Option Snap)
    (opts : PersistStoreOptions) (reg : Registry) (env : Env)
    (hu : (hasKeys keys.urlKeys && reg.urlNames.contains name) = false)
    (hl : (hasKeys keys.localKeys && reg.localNames.contains name) = false)
    (hs : (hasKeys keys.sessionKeys && reg.sessionNames.contains name) = false) :
    (createPersistStore name keys init opts reg env).isOk = true := by
  rw [createPersistStore, checkRegistry, hu, hl, hs]
  simp only [Bool.false_eq_true, if_false]
  cases hhas : hasAnyStorage keys <;> simp [hhas, Except.isOk, Except.toBool]

theorem urlConflictMsg_split (n : String) :
    urlConflictMsg n = "URL" ++ (" store name conflict: \"" ++ (n ++ "\" is already in use. Please choose a different name.")) := by
  rw [urlConflictMsg]
  rw [show ("URL store name conflict: \"" : String) = "URL" ++ " store name conflict: \"" from rfl]
  rw [String.append_assoc, String.append_assoc]

theorem localConflictMsg_split (n : String) :
    localConflictMsg n = "localStorage" ++ (" store name conflict: \"" ++ (n ++ "\" is already in use. Please choose a different name.")) := by
  rw [localConflictMsg]
  rw [show ("localStorage store name conflict: \"" : String) = "localStorage" ++ " store name conflict: \"" from rfl]
  rw [String.append_assoc, String.append_assoc]

theorem sessionConflictMsg_split (n : String) :
    sessionConflictMsg n = "sessionStorage" ++ (" store name conflict: \"" ++ (n ++ "\" is already in use. Please choose a different name.")) := by
  rw [sessionConflictMsg]
  rw [show ("sessionStorage store name conflict: \"" : String) = "sessionStorage" ++ " store name conflict: \"" from rfl]
  rw [String.append_assoc, String.append_assoc]

/-- C6: rebinding a name whose first binding holds a non-empty key set
in the same backend category fails with the error message naming that
category, while the same name bound once per distinct category keeps
succeeding. -/
theorem c6_conflict_rejection
    (name : String) (k1 k2 : KeysArg) (i1 i2 : Option Snap) (o1 o2 : PersistStoreOptions)
    (reg reg1 : Registry) (env1 env2 : Env) (b1 : Binding)
    (hok : createPersistStore name k1 i1 o1 reg env1 = .ok (b1, reg1)) :
    (hasKeys k1.urlKeys = true → hasKeys k2.urlKeys = true →
      createPersistStore name k2 i2 o2 reg1 env2 = .error (urlConflictMsg name)
      ∧ urlConflictMsg name = "URL" ++ (" store name conflict: \"" ++ (name ++ "\" is already in use. Please choose a different name.")))
    ∧ (hasKeys k1.localKeys = true → hasKeys k2.urlKeys = false → hasKeys k2.localKeys = true →
      createPersistStore name k2 i2 o2 reg1 env2 = .error (localConflictMsg name)
      ∧ localConflictMsg name = "localStorage" ++ (" store name conflict: \"" ++ (name ++ "\" is already in use. Please choose a different name.")))
    ∧ (hasKeys k1.sessionKeys = true → hasKeys k2.urlKeys = false → hasKeys k2.localKeys = false →
        hasKeys k2.sessionKeys = true →
      createPersistStore name k2 i2 o2 reg1 env2 = .error (sessionConflictMsg name)
      ∧ sessionConflictMsg name = "sessionStorage" ++ (" store name conflict: \"" ++ (name ++ "\" is already in use. Please choose a different name.")))
    ∧ (hasKeys k1.localKeys = false → hasKeys k2.urlKeys = false → hasKeys k2.sessionKeys = false →
        reg.localNames.contains name = false →
      (createPersistStore name k2 i2 o2 reg1 env2).isOk = true)
    ∧ (hasKeys k1.sessionKeys = false → hasKeys k2.urlKeys = false → hasKeys k2.localKeys = false →
        reg.sessionNames.contains name = false →
      (createPersistStore name k2 i2 o2 reg1 env2).isOk = true) := by
  have hcr := createPersistStore_registry name k1 i1 o1 reg env1 b1 reg1 hok
  have hf := checkRegistry_ok_fields name k1 reg reg1 hcr
  refine ⟨?_, ?_, ?_, ?_, ?_⟩
  · intro h1u h2u
    have hc : reg1.urlNames.contains name = true := by
      rw [hf.1, if_pos h1u]
      exact addName_contains_self _ _
    exact ⟨createPersistStore_url_conflict name k2 i2 o2 reg1 env2 h2u hc, urlConflictMsg_split name⟩
  · intro h1l h2u h2l
    have hc : reg1.localNames.contains name = true := by
      rw [hf.2.1, if_pos h1l]
      exact addName_contains_self _ _
    exact ⟨createPersistStore_local_conflict name k2 i2 o2 reg1 env2 h2u h2l hc, localConflictMsg_split name⟩
  · intro h1s h2u h2l h2s
    have hc : reg1.sessionNames.contains name = true := by
      rw [hf.2.2, if_pos h1s]
      exact addName_contains_self _ _
    exact ⟨createPersistStore_session_conflict name k2 i2 o2 reg1 env2 h2u h2l h2s hc, sessionConflictMsg_split name⟩
  · intro h1l h2u h2s hfree
    have hl1 : reg1.localNames = reg.localNames := by
      rw [hf.2.1, if_neg (by simp [h1l])]
    apply createPersistStore_ok_of_free
    · simp [h2u]
    · rw [hl1, hfree]
      simp
    · simp [h2s]
  · intro h1s h2u h2l hfree
    have hs1 : reg1.sessionNames = reg.sessionNames := by
      rw [hf.2.2, if_neg (by simp [h1s])]
    apply createPersistStore_ok_of_free
    · simp [h2u]
    · simp [h2l]
    · rw [hs1, hfree]
      simp

/-- C10: a call whose key sets are all absent or empty performs no
conflict check and no reservation (it succeeds against any registry and
returns it unchanged), and therefore never blocks a later binding of
the same name with a non-empty key set. -/
theorem c10_empty_keyset_no_registration
    (name : String) (k1 k2 : KeysArg) (i1 i2 : Option Snap) (o1 o2 : PersistStoreOptions)
    (reg : Registry) (env1 env2 : Env)
    (h1u : hasKeys k1.urlKeys = false) (h1l : hasKeys k1.localKeys = false)
    (h1s : hasKeys k1.sessionKeys = false) :
    createPersistStore name k1 i1 o1 reg env1 = .ok (mkPlainBinding name k1 i1 o1, reg)
    ∧ (hasKeys k2.localKeys = false → hasKeys k2.sessionKeys = false →
        reg.urlNames.contains name = false →
        (createPersistStore name k2 i2 o2 reg env2).isOk = true) := by
  constructor
  · rw [createPersistStore, checkRegistry, h1u, h1l, h1s]
    simp [hasAnyStorage, h1u, h1l, h1s]
  · intro h2l h2s hfree
    apply createPersistStore_ok_of_free
    · rw [hfree]
      simp
    · simp [h2l]
    · simp [h2s]

/-- Witness for C1: with the key declared in both the URL and local
backends, priority URL before local, and both substrates holding a
persisted value, the resolved initial value is the URL one. -/
theorem c1_priority_resolution_witness :
    slookup (bindingOf c1Res).storeState "k" = some (.jnum 1) := by
  have hok : createPersistStore "s" c1Keys (some [("k", .jnum 0)]) c1Opts {} c1Env =
      .ok (bindingOf c1Res, registryOf c1Res {}) := rfl
  have hk : "k" ∈ allKeysList c1Keys := by decide
  exact (c1_priority_resolution "s" c1Keys (some [("k", .jnum 0)]) c1Opts {}
    (registryOf c1Res {}) c1Env (bindingOf c1Res) "k" hok hk).2.2 .url .local_ (.jnum 1) rfl rfl

/-- Witness for C6: rebinding the name in the URL category fails with
the URL-flavoured message, and the same name still binds in the
localStorage category. -/
theorem c6_conflict_rejection_witness :
    createPersistStore "x" { urlKeys := some ["b"] } none {} (registryOf c6FirstBind {}) emptyEnv
      = .error (urlConflictMsg "x")
    ∧ (createPersistStore "x" { localKeys := some ["c"] } none {} (registryOf c6FirstBind {}) emptyEnv).isOk = true := by
  have hok : createPersistStore "x" { urlKeys := some ["a"] } none {} {} emptyEnv =
      .ok (bindingOf c6FirstBind, registryOf c6FirstBind {}) := rfl
  have h := c6_conflict_rejection "x" { urlKeys := some ["a"] } { urlKeys := some ["b"] }
    none none {} {} {} (registryOf c6FirstBind {}) emptyEnv emptyEnv (bindingOf c6FirstBind) hok
  have h2 := c6_conflict_rejection "x" { urlKeys := some ["a"] } { localKeys := some ["c"] }
    none none {} {} {} (registryOf c6FirstBind {}) emptyEnv emptyEnv (bindingOf c6FirstBind) hok
  exact ⟨(h.1 rfl rfl).1, h2.2.2.2.1 rfl rfl rfl rfl⟩

/-- Witness for C10: binding a name with an empty URL key set twice
leaves the registry untouched and never throws, and the same name then
still binds with a non-empty URL key set. -/
theorem c10_empty_keyset_no_registration_witness :
    createPersistStore "y" { urlKeys := some [] } none {} {} emptyEnv
      = .ok (mkPlainBinding "y" { urlKeys := some [] } none {}, {})
    ∧ (createPersistStore "y" { urlKeys := some ["a"] } none {} {} emptyEnv).isOk = true := by
  have h := c10_empty_keyset_no_registration "y" { urlKeys := some [] } { urlKeys := some ["a"] }
    none none {} {} {} emptyEnv emptyEnv rfl rfl rfl
  exact ⟨h.1, h.2 rfl rfl rfl⟩

theorem resolveKeyAux_none (name : String) (keys : KeysArg) (env : Env) (k : String)
    (order : List StorageType)
    (h : ∀ st, readAtKey name keys env k st = none) :
    resolveKeyAux name keys env k order = none := by
  induction order with
  | nil => rfl
  | cons st rest ih =>
    rw [resolveKeyAux, h st]
    exact ih

/-- C7: a malformed persisted value, whether invalid JSON text or
invalid base64 under the encoded flag, makes the backend read return
the empty mapping instead of propagating the failure, and a store bound
against only malformed persisted values keeps its initializer
defaults. -/
theorem c7_malformed_reads_empty
    (name : String) (keys : List String) (env : Env) (raw : String) :
    (paramsGet env.urlParams name = some raw →
      paramsGet env.urlParams (name ++ "_encoded") ≠ some "1" →
      jsonParse raw = none →
      readFromUrl name keys env = [])
    ∧ (paramsGet env.urlParams name = some raw →
      paramsGet env.urlParams (name ++ "_encoded") = some "1" →
      atob raw = none →
      readFromUrl name keys env = [])
    ∧ (∀ dec, paramsGet env.urlParams name = some raw →
      paramsGet env.urlParams (name ++ "_encoded") = some "1" →
      atob raw = some dec → jsonParse dec = none →
      readFromUrl name keys env = [])
    ∧ (paramsGet env.localStore name = some raw → jsonParse raw = none →
      readFromLocalStorage name keys env = [])
    ∧ (paramsGet env.sessionStore name = some raw → jsonParse raw = none →
      readFromSessionStorage name keys env = [])
    ∧ (∀ (ka : KeysArg) (init : Option Snap) (opts : PersistStoreOptions)
        (reg : Registry) (b : Binding) (reg2 : Registry),
        (∀ ks, readFromUrl name ks env = []) →
        (∀ ks, readFromLocalStorage name ks env = []) →
        (∀ ks, readFromSessionStorage name ks env = []) →
        createPersistStore name ka init opts reg env = .ok (b, reg2) →
        b.storeState = init.getD []) := by
  refine ⟨?_, ?_, ?_, ?_, ?_, ?_⟩
  · intro hget hflag hparse
    rw [readFromUrl, hget]
    by_cases hraw : raw = ""
    · simp [hraw]
    · have hfl : decide (paramsGet env.urlParams (name ++ "_encoded") = some "1") = false := by
        simp [hflag]
      simp [hraw, hfl, hparse]
  · intro hget hflag hbad
    rw [readFromUrl, hget]
    by_cases hraw : raw = ""
    · simp [hraw]
    · have hfl : decide (paramsGet env.urlParams (name ++ "_encoded") = some "1") = true := by
        simp [hflag]
      simp [hraw, hfl, hbad]
  · intro dec hget hflag hdec hparse
    rw [readFromUrl, hget]
    by_cases hraw : raw = ""
    · simp [hraw]
    · have hfl : decide (paramsGet env.urlParams (name ++ "_encoded") = some "1") = true := by
        simp [hflag]
      simp [hraw, hfl, hdec, hparse]
  · intro hget hparse
    rw [readFromLocalStorage, hget]
    by_cases hraw : raw = ""
    · simp [hraw]
    · simp [hraw, hparse]
  · intro hget hparse
    rw [readFromSessionStorage, hget]
    by_cases hraw : raw = ""
    · simp [hraw]
    · simp [hraw, hparse]
  · intro ka init opts reg b reg2 hu hl hs hok
    have hread : ∀ k st, readAtKey name ka env k st = none := by
      intro k st
      cases st with
      | url =>
        rw [readAtKey, hu [k]]
        cases declaresKey ka .url k <;> simp [slookup]
      | session =>
        rw [readAtKey, hs [k]]
        cases declaresKey ka .session k <;> simp [slookup]
      | local_ =>
        rw [readAtKey, hl [k]]
        cases declaresKey ka .local_ k <;> simp [slookup]
    have hres : resolveAll name ka opts env = [] := by
      rw [resolveAll]
      apply List.filterMap_eq_nil_iff.mpr
      intro k hk
      rw [resolveKey, resolveKeyAux_none name ka env k _ (hread k)]
      rfl
    rw [createPersistStore] at hok
    cases hcr : checkRegistry name ka reg with
    | error e =>
      rw [hcr] at hok
      cases hok
    | ok r2 =>
      rw [hcr] at hok
      cases hhas : hasAnyStorage ka <;> rw [hhas] at hok <;> simp at hok
      · rw [← hok.1]
        rfl
      · rw [← hok.1, mkBoundBinding_storeState, hres]
        rfl

theorem persistToUrl_skip (name : String) (ks : List String) (st : Snap)
    (opts : PersistStoreOptions) (env : Env) :
    persistToUrl name ks st opts (some (stringifySnap (projSnap ks st))) env = .ok env := by
  rw [persistToUrl]
  simp

theorem persistToLocalStorage_skip (name : String) (ks : List String) (st : Snap) (env : Env) :
    persistToLocalStorage name ks st (some (stringifySnap (projSnap ks st))) env = env := by
  rw [persistToLocalStorage]
  simp

theorem persistToSessionStorage_skip (name : String) (ks : List String) (st : Snap) (env : Env) :
    persistToSessionStorage name ks st (some (stringifySnap (projSnap ks st))) env = env := by
  rw [persistToSessionStorage]
  simp

theorem persistToUrl_ok_frame (name : String) (ks : List String) (st : Snap)
    (opts : PersistStoreOptions) (prev : Option String) (env env' : Env)
    (h : persistToUrl name ks st opts prev env = .ok env') :
    env'.localStore = env.localStore ∧ env'.localWrites = env.localWrites
    ∧ env'.sessionStore = env.sessionStore ∧ env'.sessionWrites = env.sessionWrites
    ∧ env'.localSetFails = env.localSetFails ∧ env'.sessionSetFails = env.sessionSetFails
    ∧ env'.warns = env.warns := by
  simp only [persistToUrl] at h
  split at h
  · cases h
    exact ⟨rfl, rfl, rfl, rfl, rfl, rfl, rfl⟩
  · split at h
    · split at h
      · cases h
      · cases h
        exact ⟨rfl, rfl, rfl, rfl, rfl, rfl, rfl⟩
    · cases h
      exact ⟨rfl, rfl, rfl, rfl, rfl, rfl, rfl⟩

theorem persistToLocalStorage_frame (name : String) (ks : List String) (st : Snap)
    (prev : Option String) (env : Env) :
    (persistToLocalStorage name ks st prev env).urlParams = env.urlParams
    ∧ (persistToLocalStorage name ks st prev env).urlWrites = env.urlWrites
    ∧ (persistToLocalStorage name ks st prev env).histLen = env.histLen
    ∧ (persistToLocalStorage name ks st prev env).sessionStore = env.sessionStore
    ∧ (persistToLocalStorage name ks st prev env).sessionWrites = env.sessionWrites := by
  rw [persistToLocalStorage]
  split
  · exact ⟨rfl, rfl, rfl, rfl, rfl⟩
  · split
    · exact ⟨rfl, rfl, rfl, rfl, rfl⟩
    · exact ⟨rfl, rfl, rfl, rfl, rfl⟩

theorem persistToSessionStorage_frame (name : String) (ks : List String) (st : Snap)
    (prev : Option String) (env : Env) :
    (persistToSessionStorage name ks st prev env).urlParams = env.urlParams
    ∧ (persistToSessionStorage name ks st prev env).urlWrites = env.urlWrites
    ∧ (persistToSessionStorage name ks st prev env).histLen = env.histLen
    ∧ (persistToSessionStorage name ks st prev env).localStore = env.localStore
    ∧ (persistToSessionStorage name ks st prev env).localWrites = env.localWrites := by
  rw [persistToSessionStorage]
  split
  · exact ⟨rfl, rfl, rfl, rfl, rfl⟩
  · split
    · exact ⟨rfl, rfl, rfl, rfl, rfl⟩
    · exact ⟨rfl, rfl, rfl, rfl, rfl⟩

theorem flushUrl_ok (cur : Snap) (hist : Bool) (b : Binding) (env : Env)
    (b1 : Binding) (env1 : Env)
    (h : flushUrl cur hist b env = .ok (b1, env1)) :
    (b1.name = b.name ∧ b1.urlKeys = b.urlKeys ∧ b1.localKeys = b.localKeys
      ∧ b1.sessionKeys = b.sessionKeys ∧ b1.prevLocal = b.prevLocal
      ∧ b1.prevStrLocal = b.prevStrLocal ∧ b1.prevSession = b.prevSession
      ∧ b1.prevStrSession = b.prevStrSession ∧ b1.pending = b.pending)
    ∧ (env1.localStore = env.localStore ∧ env1.localWrites = env.localWrites
      ∧ env1.sessionStore = env.sessionStore ∧ env1.sessionWrites = env.sessionWrites
      ∧ env1.localSetFails = env.localSetFails ∧ env1.sessionSetFails = env.sessionSetFails) := by
  simp only [flushUrl] at h
  split at h
  · split at h
    · cases h
    · rename_i env2 heq
      cases h
      have hf := persistToUrl_ok_frame _ _ _ _ _ _ _ heq
      exact ⟨⟨rfl, rfl, rfl, rfl, rfl, rfl, rfl, rfl, rfl⟩,
        ⟨hf.1, hf.2.1, hf.2.2.1, hf.2.2.2.1, hf.2.2.2.2.1, hf.2.2.2.2.2.1⟩⟩
  · cases h
    exact ⟨⟨rfl, rfl, rfl, rfl, rfl, rfl, rfl, rfl, rfl⟩, ⟨rfl, rfl, rfl, rfl, rfl, rfl⟩⟩

theorem flushUrl_skip (cur : Snap) (hist : Bool) (b : Binding) (env : Env)
    (b1 : Binding) (env1 : Env)
    (hprev : b.prevStrUrl = some (stringifySnap (projSnap (b.urlKeys.getD []) cur)))
    (h : flushUrl cur hist b env = .ok (b1, env1)) :
    env1 = env := by
  simp only [flushUrl] at h
  split at h
  · have hps : persistToUrl b.name (b.urlKeys.getD []) (projSnap (b.urlKeys.getD []) cur)
        { b.opts with
          history := some (if hist && useHistoryOf b.opts { urlKeys := b.urlKeys, localKeys := b.localKeys, sessionKeys := b.sessionKeys } then historyKeysOf b.opts else []) }
        b.prevStrUrl env = .ok env := by
      rw [hprev]
      have hs := persistToUrl_skip b.name (b.urlKeys.getD []) (projSnap (b.urlKeys.getD []) cur)
        { b.opts with
          history := some (if hist && useHistoryOf b.opts { urlKeys := b.urlKeys, localKeys := b.localKeys, sessionKeys := b.sessionKeys } then historyKeysOf b.opts else []) }
        env
      rw [projSnap_idem] at hs
      exact hs
    rw [hps] at h
    cases h
    rfl
  · cases h
    rfl

theorem flushLocal_frame (cur : Snap) (b : Binding) (env : Env) :
    ((flushLocal cur b env).2.urlParams = env.urlParams
      ∧ (flushLocal cur b env).2.urlWrites = env.urlWrites
      ∧ (flushLocal cur b env).2.histLen = env.histLen
      ∧ (flushLocal cur b env).2.sessionStore = env.sessionStore
      ∧ (flushLocal cur b env).2.sessionWrites = env.sessionWrites)
    ∧ ((flushLocal cur b env).1.name = b.name
      ∧ (flushLocal cur b env).1.sessionKeys = b.sessionKeys
      ∧ (flushLocal cur b env).1.prevSession = b.prevSession
      ∧ (flushLocal cur b env).1.prevStrSession = b.prevStrSession
      ∧ (flushLocal cur b env).1.pending = b.pending) := by
  rw [flushLocal]
  split
  · have hf := persistToLocalStorage_frame b.name (b.localKeys.getD []) (projSnap (b.localKeys.getD []) cur) b.prevStrLocal env
    exact ⟨⟨hf.1, hf.2.1, hf.2.2.1, hf.2.2.2.1, hf.2.2.2.2⟩, ⟨rfl, rfl, rfl, rfl, rfl⟩⟩
  · exact ⟨⟨rfl, rfl, rfl, rfl, rfl⟩, ⟨rfl, rfl, rfl, rfl, rfl⟩⟩

theorem flushLocal_skip (cur : Snap) (b : Binding) (env : Env)
    (hprev : b.prevStrLocal = some (stringifySnap (projSnap (b.localKeys.getD []) cur))) :
    (flushLocal cur b env).2 = env := by
  rw [flushLocal]
  split
  · have hs := persistToLocalStorage_skip b.name (b.localKeys.getD []) (projSnap (b.localKeys.getD []) cur) env
    rw [projSnap_idem] at hs
    simp only [hprev, hs]
  · rfl

theorem flushSession_frame (cur : Snap) (b : Binding) (env : Env) :
    (flushSession cur b env).2.urlParams = env.urlParams
    ∧ (flushSession cur b env).2.urlWrites = env.urlWrites
    ∧ (flushSession cur b env).2.histLen = env.histLen
    ∧ (flushSession cur b env).2.localStore = env.localStore
    ∧ (flushSession cur b env).2.localWrites = env.localWrites := by
  rw [flushSession]
  split
  · have hf := persistToSessionStorage_frame b.name (b.sessionKeys.getD []) (projSnap (b.sessionKeys.getD []) cur) b.prevStrSession env
    exact ⟨hf.1, hf.2.1, hf.2.2.1, hf.2.2.2.1, hf.2.2.2.2⟩
  · exact ⟨rfl, rfl, rfl, rfl, rfl⟩

theorem flushSession_skip (cur : Snap) (b : Binding) (env : Env)
    (hprev : b.prevStrSession = some (stringifySnap (projSnap (b.sessionKeys.getD []) cur))) :
    (flushSession cur b env).2 = env := by
  rw [flushSession]
  split
  · have hs := persistToSessionStorage_skip b.name (b.sessionKeys.getD []) (projSnap (b.sessionKeys.getD []) cur) env
    rw [projSnap_idem] at hs
    simp only [hprev, hs]
  · rfl

/-- C8: persisting the same logical value twice issues at most one
substrate call per backend: a persist whose projection serializes to
the tracked previous serialization is a no-op on the substrate, a
transition with a matching serialization marks no dirtiness for that
backend, and a completed flush leaves every backend whose tracked
serialization matches the scheduled snapshot untouched. -/
theorem c8_idempotent_writes :
    (∀ name ks st opts env,
      persistToUrl name ks st opts (some (stringifySnap (projSnap ks st))) env = .ok env)
    ∧ (∀ name ks st env,
      persistToLocalStorage name ks st (some (stringifySnap (projSnap ks st))) env = env)
    ∧ (∀ name ks st env,
      persistToSessionStorage name ks st (some (stringifySnap (projSnap ks st))) env = env)
    ∧ (∀ b curr,
      (Option.map stringifySnap b.prevUrl = some (stringifySnap (projSnap (b.urlKeys.getD []) curr)) →
        (checkChanges b curr).url = false)
      ∧ (Option.map stringifySnap b.prevLocal = some (stringifySnap (projSnap (b.localKeys.getD []) curr)) →
        (checkChanges b curr).loc = false)
      ∧ (Option.map stringifySnap b.prevSession = some (stringifySnap (projSnap (b.sessionKeys.getD []) curr)) →
        (checkChanges b curr).ses = false))
    ∧ (∀ b cur hist env b' env',
      b.pending = some (cur, hist) →
      fire b env = .ok (b', env') →
      (b.prevStrUrl = some (stringifySnap (projSnap (b.urlKeys.getD []) cur)) →
        env'.urlParams = env.urlParams ∧ env'.urlWrites = env.urlWrites ∧ env'.histLen = env.histLen)
      ∧ (b.prevStrLocal = some (stringifySnap (projSnap (b.localKeys.getD []) cur)) →
        env'.localStore = env.localStore ∧ env'.localWrites = env.localWrites)
      ∧ (b.prevStrSession = some (stringifySnap (projSnap (b.sessionKeys.getD []) cur)) →
        env'.sessionStore = env.sessionStore ∧ env'.sessionWrites = env.sessionWrites)) := by
  refine ⟨?_, ?_, ?_, ?_, ?_⟩
  · intro name ks st opts env
    exact persistToUrl_skip name ks st opts env
  · intro name ks st env
    exact persistToLocalStorage_skip name ks st env
  · intro name ks st env
    exact persistToSessionStorage_skip name ks st env
  · intro b curr
    refine ⟨?_, ?_, ?_⟩
    · intro hm
      rw [checkChanges]
      cases hu : hasKeys b.urlKeys <;> simp [hu, hm]
    · intro hm
      rw [checkChanges]
      cases hu : hasKeys b.localKeys <;> simp [hu, hm]
    · intro hm
      rw [checkChanges]
      cases hu : hasKeys b.sessionKeys <;> simp [hu, hm]
  · intro b cur hist env b' env' hpend hok
    simp only [fire, hpend] at hok
    cases hfu : flushUrl cur hist { b with pending := none } env with
    | error e =>
      rw [hfu] at hok
      cases hok
    | ok p1 =>
      rw [hfu] at hok
      obtain ⟨b1, env1⟩ := p1
      simp only [] at hok
      injection hok with h2
      have henv' : (flushSession cur (flushLocal cur b1 env1).1 (flushLocal cur b1 env1).2).2 = env' :=
        congrArg Prod.snd h2
      subst henv'
      have hufr := flushUrl_ok cur hist { b with pending := none } env b1 env1 hfu
      have hl2 := flushLocal_frame cur b1 env1
      have hl3 := flushSession_frame cur (flushLocal cur b1 env1).1 (flushLocal cur b1 env1).2
      refine ⟨?_, ?_, ?_⟩
      · intro hU
        have henv1 : env1 = env := by
          apply flushUrl_skip cur hist { b with pending := none } env b1 env1 _ hfu
          exact hU
        rw [hl3.1, hl3.2.1, hl3.2.2.1, hl2.1.1, hl2.1.2.1, hl2.1.2.2.1, henv1]
        exact ⟨rfl, rfl, rfl⟩
      · intro hL
        have hskipL : (flushLocal cur b1 env1).2 = env1 := by
          apply flushLocal_skip
          rw [hufr.1.2.2.2.2.2.1, hufr.1.2.2.1]
          exact hL
        constructor
        · rw [hl3.2.2.2.1, hskipL]
          exact hufr.2.1
        · rw [hl3.2.2.2.2, hskipL]
          exact hufr.2.2.1
      · intro hS
        have hskipS : (flushSession cur (flushLocal cur b1 env1).1 (flushLocal cur b1 env1).2).2
            = (flushLocal cur b1 env1).2 := by
          apply flushSession_skip
          rw [hl2.2.2.1, hl2.2.2.2.2.1, hufr.1.2.2.2.2.2.2.2.1, hufr.1.2.2.2.1]
          exact hS
        constructor
        · rw [hskipS, hl2.1.2.2.2.1]
          exact hufr.2.2.2.1
        · rw [hskipS, hl2.1.2.2.2.2]
          exact hufr.2.2.2.2.1

theorem paramsGet_delete_self (ps : List (String × String)) (k : String) :
    paramsGet (paramsDelete ps k) k = none := by
  induction ps with
  | nil => rfl
  | cons p rest ih =>
    obtain ⟨k', v'⟩ := p
    by_cases h : k' = k
    · rw [paramsDelete, if_pos h]
      exact ih
    · rw [paramsDelete, if_neg h, paramsGet, if_neg h]
      exact ih

theorem paramsGet_set_self (ps : List (String × String)) (k v : String) :
    paramsGet (paramsSet ps k v) k = some v := by
  induction ps with
  | nil => simp [paramsSet, paramsGet]
  | cons p rest ih =>
    obtain ⟨k', v'⟩ := p
    by_cases h : k' = k
    · rw [paramsSet, if_pos h, paramsGet, if_pos rfl]
    · rw [paramsSet, if_neg h, paramsGet, if_neg h]
      exact ih

theorem paramsGet_delete_other (ps : List (String × String)) (k' k : String) (hne : k' ≠ k) :
    paramsGet (paramsDelete ps k') k = paramsGet ps k := by
  induction ps with
  | nil => rfl
  | cons p rest ih =>
    obtain ⟨k0, v0⟩ := p
    by_cases h : k0 = k'
    · rw [paramsDelete, if_pos h, paramsGet, if_neg (h.symm ▸ hne ∘ Eq.symm ∘ Eq.symm)]
      exact ih
    · rw [paramsDelete, if_neg h, paramsGet, paramsGet]
      by_cases h2 : k0 = k
      · rw [if_pos h2, if_pos h2]
      · rw [if_neg h2, if_neg h2]
        exact ih

theorem paramsGet_set_other (ps : List (String × String)) (k' k v : String) (hne : k' ≠ k) :
    paramsGet (paramsSet ps k' v) k = paramsGet ps k := by
  induction ps with
  | nil => simp [paramsSet, paramsGet, hne]
  | cons p rest ih =>
    obtain ⟨k0, v0⟩ := p
    by_cases h : k0 = k'
    · rw [paramsSet, if_pos h, paramsGet, if_neg hne, paramsGet, if_neg (h ▸ hne)]
      exact paramsGet_delete_other rest k' k hne
    · rw [paramsSet, if_neg h, paramsGet, paramsGet]
      by_cases h2 : k0 = k
      · rw [if_pos h2, if_pos h2]
      · rw [if_neg h2, if_neg h2]
        exact ih

theorem name_ne_encoded (name : String) : name ≠ name ++ "_encoded" := by
  intro h
  have hl := congrArg String.length h
  rw [String.length_append] at hl
  have : ("_encoded" : String).length = 8 := rfl
  omega

theorem persistToUrl_plain (name : String) (keys : List String) (st : Snap)
    (opts : PersistStoreOptions) (prev : Option String) (env : Env)
    (hne : prev ≠ some (stringifySnap (projSnap keys st)))
    (hsE : (b64Enabled opts && decide ((stringifySnap (projSnap keys st)).length > b64Threshold opts)) = false) :
    persistToUrl name keys st opts prev env =
      .ok (recordUrlWrite
        { env with urlParams := paramsSet (paramsDelete env.urlParams (name ++ "_encoded")) name (stringifySnap (projSnap keys st)) }
        (useHistOpt opts)) := by
  simp only [persistToUrl]
  rw [if_neg hne, hsE]
  simp

theorem persistToUrl_encode (name : String) (keys : List String) (st : Snap)
    (opts : PersistStoreOptions) (prev : Option String) (env : Env) (enc : String)
    (hne : prev ≠ some (stringifySnap (projSnap keys st)))
    (hsE : (b64Enabled opts && decide ((stringifySnap (projSnap keys st)).length > b64Threshold opts)) = true)
    (hbt : btoa (stringifySnap (projSnap keys st)) = some enc) :
    persistToUrl name keys st opts prev env =
      .ok (recordUrlWrite
        { env with urlParams := paramsSet (paramsSet env.urlParams (name ++ "_encoded") "1") name enc }
        (useHistOpt opts)) := by
  simp only [persistToUrl]
  rw [if_neg hne, hsE]
  simp [hbt]

/-- C5, amended: with base64 enabled and a configured threshold t, an
actually performed URL write (serialization differing from the tracked
previous one) of serialized length exactly t is written unencoded and
removes the name_encoded sibling; length t plus one is written
base64-encoded with the sibling set to 1, provided the payload is
within the Latin-1 domain of btoa; and a write of length at most t
clears the sibling again. -/
theorem c5_threshold_boundary
    (name : String) (keys : List String) (st : Snap) (opts : PersistStoreOptions)
    (prev : Option String) (env : Env) (bo : B64Opts) (t : Nat)
    (hen : b64Enabled opts = true) (hb : opts.base64 = some bo) (ht : bo.threshold = some t)
    (hne : prev ≠ some (stringifySnap (projSnap keys st))) :
    ((stringifySnap (projSnap keys st)).length = t →
      (persistToUrl name keys st opts prev env).isOk = true
      ∧ paramsGet (okEnv (persistToUrl name keys st opts prev env) env).urlParams name
          = some (stringifySnap (projSnap keys st))
      ∧ paramsGet (okEnv (persistToUrl name keys st opts prev env) env).urlParams (name ++ "_encoded")
          = none)
    ∧ ((stringifySnap (projSnap keys st)).length = t + 1 →
        isLatin1 (stringifySnap (projSnap keys st)) = true →
      (persistToUrl name keys st opts prev env).isOk = true
      ∧ paramsGet (okEnv (persistToUrl name keys st opts prev env) env).urlParams name
          = btoa (stringifySnap (projSnap keys st))
      ∧ paramsGet (okEnv (persistToUrl name keys st opts prev env) env).urlParams (name ++ "_encoded")
          = some "1")
    ∧ ((stringifySnap (projSnap keys st)).length ≤ t →
      (persistToUrl name keys st opts prev env).isOk = true
      ∧ paramsGet (okEnv (persistToUrl name keys st opts prev env) env).urlParams name
          = some (stringifySnap (projSnap keys st))
      ∧ paramsGet (okEnv (persistToUrl name keys st opts prev env) env).urlParams (name ++ "_encoded")
          = none) := by
  have hD2 := stringifySnap_length (projSnap keys st)
  cases t with
  | zero =>
    refine ⟨?_, ?_, ?_⟩
    · intro hlen
      omega
    · intro hlen
      omega
    · intro hlen
      omega
  | succ m =>
    have heff : b64Threshold opts = Nat.succ m := by
      simp only [b64Threshold, hb, ht]
    refine ⟨?_, ?_, ?_⟩
    · intro hlen
      have hsE : (b64Enabled opts && decide ((stringifySnap (projSnap keys st)).length > b64Threshold opts)) = false := by
        rw [hen, heff, hlen]
        simp
      rw [persistToUrl_plain name keys st opts prev env hne hsE]
      refine ⟨rfl, ?_, ?_⟩
      · rw [okEnv]
        show paramsGet (paramsSet _ name _) name = _
        exact paramsGet_set_self _ _ _
      · rw [okEnv]
        show paramsGet (paramsSet _ name _) (name ++ "_encoded") = _
        rw [paramsGet_set_other _ name (name ++ "_encoded") _ (name_ne_encoded name)]
        exact paramsGet_delete_self _ _
    · intro hlen hlat
      have hsE : (b64Enabled opts && decide ((stringifySnap (projSnap keys st)).length > b64Threshold opts)) = true := by
        rw [hen, heff, hlen]
        simp
      have hbt : btoa (stringifySnap (projSnap keys st))
          = some (String.mk (b64EncodeChunks ((stringifySnap (projSnap keys st)).toList.map Char.toNat))) := by
        rw [btoa, if_pos hlat]
      rw [persistToUrl_encode name keys st opts prev env _ hne hsE hbt]
      refine ⟨rfl, ?_, ?_⟩
      · rw [okEnv, hbt]
        show paramsGet (paramsSet _ name _) name = _
        exact paramsGet_set_self _ _ _
      · rw [okEnv]
        show paramsGet (paramsSet _ name _) (name ++ "_encoded") = _
        rw [paramsGet_set_other _ name (name ++ "_encoded") _ (name_ne_encoded name)]
        exact paramsGet_set_self _ _ _
    · intro hlen
      have hsE : (b64Enabled opts && decide ((stringifySnap (projSnap keys st)).length > b64Threshold opts)) = false := by
        rw [hen, heff]
        simp
        omega
      rw [persistToUrl_plain name keys st opts prev env hne hsE]
      refine ⟨rfl, ?_, ?_⟩
      · rw [okEnv]
        show paramsGet (paramsSet _ name _) name = _
        exact paramsGet_set_self _ _ _
      · rw [okEnv]
        show paramsGet (paramsSet _ name _) (name ++ "_encoded") = _
        rw [paramsGet_set_other _ name (name ++ "_encoded") _ (name_ne_encoded name)]
        exact paramsGet_delete_self _ _

/-- C9, amended: the engine attaches its destroy method exactly when
some backend declares a key; the no-persistence early return hands back
the bare wrapped store (get, set, subscribe only) without attaching
destroy. -/
theorem c9_destroy_attachment (name : String) (keys : KeysArg) (init : Option Snap)
    (opts : PersistStoreOptions) (reg : Registry) (env : Env) (b : Binding) (reg' : Registry)
    (hok : createPersistStore name keys init opts reg env = .ok (b, reg')) :
    b.hasDestroy = hasAnyStorage keys := by
  rw [createPersistStore] at hok
  cases hcr : checkRegistry name keys reg with
  | error e =>
    rw [hcr] at hok
    cases hok
  | ok r2 =>
    rw [hcr] at hok
    cases hhas : hasAnyStorage keys <;> rw [hhas] at hok <;> simp at hok <;>
      rw [← hok.1] <;> rfl

/-- C9 counterexample: with all three key sets absent the call returns
the bare store with no engine-attached destroy method, against the
claim that destroy is exposed in the no-persistence case too. -/
theorem c9_no_destroy_counterexample :
    createPersistStore "p" {} none {} {} emptyEnv = .ok (mkPlainBinding "p" {} none {}, {})
    ∧ (mkPlainBinding "p" {} none {}).hasDestroy = false :=
  ⟨rfl, rfl⟩

/-- Witness for C9: with a non-empty key set the engine does attach
destroy. -/
theorem c9_destroy_attachment_witness :
    (bindingOf (createPersistStore "q" { localKeys := some ["a"] } none {} {} emptyEnv)).hasDestroy = true := by
  have hok : createPersistStore "q" { localKeys := some ["a"] } none {} {} emptyEnv
      = .ok (bindingOf (createPersistStore "q" { localKeys := some ["a"] } none {} {} emptyEnv),
          registryOf (createPersistStore "q" { localKeys := some ["a"] } none {} {} emptyEnv) {}) := rfl
  exact (c9_destroy_attachment "q" { localKeys := some ["a"] } none {} {} emptyEnv _ _ hok).trans rfl

/-- C2 evaluation: two transitions inside one debounce window, the
second returning to the tracked value; the scheduled snapshot stays the
intermediate one, and the single flush writes that intermediate state,
not the final one. -/
theorem c2_stale_flush_eval :
    c2AfterRun.storeState = [("a", JVal.jnum 1)]
    ∧ c2AfterRun.pending = some ([("a", JVal.jnum 2)], false)
    ∧ paramsGet (firedEnv c2AfterRun emptyEnv).localStore "n" = some "\x7b\"a\":2\x7d"
    ∧ (firedEnv c2AfterRun emptyEnv).localWrites = 1
    ∧ stringifySnap (projSnap ["a"] c2AfterRun.storeState) = "\x7b\"a\":1\x7d"
    ∧ ("\x7b\"a\":2\x7d" : String) ≠ "\x7b\"a\":1\x7d" :=
  ⟨rfl, rfl, rfl, rfl, rfl, by decide⟩

/-- C3 evaluation: a dirty transition schedules the flush, destroy is
called while the timer is pending, and the firing timer still performs
the localStorage write. -/
theorem c3_destroy_pending_write_eval :
    c3Destroyed.subscribed = false
    ∧ c3Destroyed.pending = some ([("a", JVal.jnum 2)], false)
    ∧ (firedEnv c3Destroyed emptyEnv).localWrites = 1
    ∧ paramsGet (firedEnv c3Destroyed emptyEnv).localStore "n" = some "\x7b\"a\":2\x7d"
    ∧ emptyEnv.localWrites = 0 :=
  ⟨rfl, rfl, rfl, rfl, rfl⟩

/-- C4 evaluation: with base64 enabled and a payload above the
threshold containing a code point above 255, the debounce timer
callback propagates the btoa InvalidCharacterError instead of
completing the flush. -/
theorem c4_btoa_throw_eval :
    c4Bind1.pending = some ([("a", JVal.jstr "€")], false)
    ∧ fire c4Bind1 emptyEnv = .error "InvalidCharacterError"
    ∧ btoa (stringifySnap (projSnap ["a"] c4Bind1.storeState)) = none :=
  ⟨rfl, rfl, rfl⟩

/-- C5 counterexample: with threshold 8, a serialized payload of length
9 whose text contains a code point above 255 is not written
base64-encoded with the sibling flag; the write raises
InvalidCharacterError from btoa instead. -/
theorem c5_threshold_counterexample :
    (stringifySnap (projSnap ["a"] [("a", JVal.jstr "€")])).length = 8 + 1
    ∧ b64Enabled c5OptsT8 = true
    ∧ persistToUrl "n" ["a"] [("a", JVal.jstr "€")] c5OptsT8 none emptyEnv
        = .error "InvalidCharacterError" :=
  ⟨rfl, rfl, rfl⟩

/-- Witness for C5: at threshold 7 a length-7 payload written over a
previously set flag is stored plain with the flag removed, and a
length-8 Latin-1 payload is stored base64-encoded with the flag set. -/
theorem c5_threshold_boundary_witness :
    paramsGet (okEnv (persistToUrl "n" ["a"] [("a", JVal.jnum 0)] c5OptsT7 none c5FlagEnv) c5FlagEnv).urlParams ("n" ++ "_encoded") = none
    ∧ paramsGet (okEnv (persistToUrl "n" ["a"] [("a", JVal.jnum 0)] c5OptsT7 none c5FlagEnv) c5FlagEnv).urlParams "n" = some (stringifySnap (projSnap ["a"] [("a", JVal.jnum 0)]))
    ∧ paramsGet (okEnv (persistToUrl "n" ["a"] [("a", JVal.jnum 10)] c5OptsT7 none emptyEnv) emptyEnv).urlParams "n" = btoa (stringifySnap (projSnap ["a"] [("a", JVal.jnum 10)]))
    ∧ paramsGet (okEnv (persistToUrl "n" ["a"] [("a", JVal.jnum 10)] c5OptsT7 none emptyEnv) emptyEnv).urlParams ("n" ++ "_encoded") = some "1" := by
  have hA := c5_threshold_boundary "n" ["a"] [("a", JVal.jnum 0)] c5OptsT7 none c5FlagEnv
    { enabled := some true, threshold := some 7 } 7 rfl rfl rfl (fun h => Option.noConfusion h)
  have hB := c5_threshold_boundary "n" ["a"] [("a", JVal.jnum 10)] c5OptsT7 none emptyEnv
    { enabled := some true, threshold := some 7 } 7 rfl rfl rfl (fun h => Option.noConfusion h)
  exact ⟨(hA.1 rfl).2.2, (hA.1 rfl).2.1, (hB.2.1 rfl rfl).2.1, (hB.2.1 rfl rfl).2.2⟩

/-- Witness for C8: persisting the value already tracked is a no-op at
the persist level, marks no dirtiness at the transition level, and a
completed flush of such a snapshot leaves the substrate and its call
count unchanged. -/
theorem c8_idempotent_writes_witness :
    persistToLocalStorage "n" ["a"] [("a", JVal.jnum 1)]
        (some (stringifySnap (projSnap ["a"] [("a", JVal.jnum 1)]))) emptyEnv = emptyEnv
    ∧ (checkChanges c8B [("a", JVal.jnum 1)]).loc = false
    ∧ (firedEnv c8B emptyEnv).localStore = emptyEnv.localStore
    ∧ (firedEnv c8B emptyEnv).localWrites = emptyEnv.localWrites := by
  have h := c8_idempotent_writes
  have hfire : fire c8B emptyEnv = .ok (firedBinding c8B emptyEnv, firedEnv c8B emptyEnv) := rfl
  refine ⟨h.2.1 "n" ["a"] [("a", JVal.jnum 1)] emptyEnv, ?_, ?_, ?_⟩
  · exact (h.2.2.2.1 c8B [("a", JVal.jnum 1)]).2.1 rfl
  · exact ((h.2.2.2.2 c8B [("a", JVal.jnum 1)] false emptyEnv _ _ rfl hfire).2.1 rfl).1
  · exact ((h.2.2.2.2 c8B [("a", JVal.jnum 1)] false emptyEnv _ _ rfl hfire).2.1 rfl).2

/-- Witness for C7: concrete malformed persisted values (invalid JSON
in all three substrates, invalid base64 under the encoded flag) make
every read return the empty mapping, and a store bound against them
keeps its initializer default. -/
theorem c7_malformed_reads_empty_witness :
    readFromUrl "n" ["a"] c7Env = []
    ∧ readFromUrl "m" ["a"] c7Env = []
    ∧ readFromLocalStorage "n" ["a"] c7Env = []
    ∧ readFromSessionStorage "n" ["a"] c7Env = []
    ∧ (bindingOf (createPersistStore "n" { urlKeys := some ["a"], localKeys := some ["a"], sessionKeys := some ["a"] }
        (some [("a", JVal.jnum 7)]) {} {} c7Env)).storeState = [("a", JVal.jnum 7)] := by
  have hok : createPersistStore "n" { urlKeys := some ["a"], localKeys := some ["a"], sessionKeys := some ["a"] }
      (some [("a", JVal.jnum 7)]) {} {} c7Env
      = .ok (bindingOf (createPersistStore "n" { urlKeys := some ["a"], localKeys := some ["a"], sessionKeys := some ["a"] }
          (some [("a", JVal.jnum 7)]) {} {} c7Env),
        registryOf (createPersistStore "n" { urlKeys := some ["a"], localKeys := some ["a"], sessionKeys := some ["a"] }
          (some [("a", JVal.jnum 7)]) {} {} c7Env) {}) := rfl
  refine ⟨?_, ?_, ?_, ?_, ?_⟩
  · exact (c7_malformed_reads_empty "n" ["a"] c7Env "notjson").1 rfl (by decide) rfl
  · exact (c7_malformed_reads_empty "m" ["a"] c7Env "!!!").2.1 rfl rfl rfl
  · exact (c7_malformed_reads_empty "n" ["a"] c7Env "\x7bbad").2.2.2.1 rfl rfl
  · exact (c7_malformed_reads_empty "n" ["a"] c7Env "nope").2.2.2.2.1 rfl rfl
  · exact (c7_malformed_reads_empty "n" ["a"] c7Env "notjson").2.2.2.2.2
      { urlKeys := some ["a"], localKeys := some ["a"], sessionKeys := some ["a"] }
      (some [("a", JVal.jnum 7)]) {} {} _ _
      (fun ks => (c7_malformed_reads_empty "n" ks c7Env "notjson").1 rfl (by decide) rfl)
      (fun ks => (c7_malformed_reads_empty "n" ks c7Env "\x7bbad").2.2.2.1 rfl rfl)
      (fun ks => (c7_malformed_reads_empty "n" ks c7Env "nope").2.2.2.2.1 rfl rfl)
      hok
